import Mathlib

/-!
# Verification of the hayabusa rule compiler and selection-tree engine

Shallow embedding of `src/detections/rule.rs`: the rule compiler
(`parse_rule`, `parse_selection_recursively`), the selection tree
(`AndSelectionNode`, `OrSelectionNode`, `LeafSelectionNode`), the validator
(`init`), the matcher (`RegexMatcher`) and evaluation (`select`).

Rust `panic!` sites (e.g. `unwrap` on `None`, `Vec::remove` on an empty
vector) are embedded as `Option`-returning functions where `none` models the
panic.  Machine integers (`i64`) are embedded as `Int`; no arithmetic in the
engine can overflow (values are only stringified).
-/

/-- JSON value, embedding `serde_json::Value`.  `Number` is embedded as `Int`
(the engine only stringifies numbers; no claim involves floating point). -/
inductive Value where
  | null : Value
  | bool (b : Bool) : Value
  | num (n : Int) : Value
  | str (s : String) : Value
  | arr (xs : List Value) : Value
  | obj (fields : List (String × Value)) : Value
deriving Repr

/-- Embedding of `serde_json::Value::is_null`. -/
def Value.isNull : Value → Bool
  | .null => true
  | _ => false

/-- Embedding of `serde_json::Value::is_object`. -/
def Value.isObject : Value → Bool
  | .obj _ => true
  | _ => false

/-- Embedding of `serde_json::Value::as_str`: `Some` only on strings. -/
def Value.asStr : Value → Option String
  | .str s => some s
  | _ => none

/-- Embedding of `&value[key]` (`serde_json` string indexing): member lookup on objects,
`Null` for a missing member or a non-object. -/
def Value.index (v : Value) (key : String) : Value :=
  match v with
  | .obj fields => (fields.lookup key).getD .null
  | _ => .null

/-- YAML document node, embedding `yaml_rust::Yaml`.  `Real` carries its raw
string form, as in `yaml_rust`.  A `Hash` is an insertion-ordered association
list (`LinkedHashMap` iteration order). -/
inductive Yaml where
  | real (s : String) : Yaml
  | integer (i : Int) : Yaml
  | string (s : String) : Yaml
  | boolean (b : Bool) : Yaml
  | array (xs : List Yaml) : Yaml
  | hash (entries : List (Yaml × Yaml)) : Yaml
  | null : Yaml
  | badValue : Yaml
deriving Repr

/-- Embedding of `Yaml::as_hash`. -/
def Yaml.asHash : Yaml → Option (List (Yaml × Yaml))
  | .hash entries => some entries
  | _ => none

/-- Embedding of `Yaml::as_vec`. -/
def Yaml.asVec : Yaml → Option (List Yaml)
  | .array xs => some xs
  | _ => none

/-- Embedding of `Yaml::as_str`: `Some` only on strings. -/
def Yaml.asStr : Yaml → Option String
  | .string s => some s
  | _ => none

/-- Embedding of `Yaml::is_badvalue`. -/
def Yaml.isBadvalue : Yaml → Bool
  | .badValue => true
  | _ => false

/-- Embedding of `Yaml::is_null`. -/
def Yaml.isNull : Yaml → Bool
  | .null => true
  | _ => false

/-- Hash lookup by a `Yaml` key, as `LinkedHashMap::get` with `Yaml` equality.
Used by `yaml[str]` indexing, where the key is always `Yaml::String`. -/
def Yaml.hashGet : List (Yaml × Yaml) → String → Option Yaml
  | [], _ => none
  | (Yaml.string k, v) :: rest, key => if k = key then some v else Yaml.hashGet rest key
  | _ :: rest, key => Yaml.hashGet rest key

/-- Embedding of `yaml[key]` for a `&str` key (`Index<&str> for Yaml`): lookup of
`Yaml::String(key)` in the hash, `BadValue` when absent or not a hash. -/
def Yaml.index (y : Yaml) (key : String) : Yaml :=
  match y.asHash with
  | some entries => (Yaml.hashGet entries key).getD .badValue
  | none => .badValue

/-- Modelled from the spec: the alias-configuration source
(`configs::singleton().event_key_alias_config`, not under `src/`).  Its
contract is a key-value lookup from a logical field name to a dotted actual
path, fully populated before use; embedded as an association list passed
explicitly (the spec's recommended dependency-injection form). -/
def AliasConfig : Type := List (String × String)

/-- Modelled from the spec: `get_event_key` is the synchronous lookup
`lookup(fieldName) -> optional dottedPath`. -/
def AliasConfig.get_event_key (cfg : AliasConfig) (key : String) : Option String :=
  List.lookup key cfg

/-- Rust `str::split(".")`: splits on every dot, keeping empty pieces;
an empty string splits to `[""]`. -/
def splitDotAux : List Char → List Char → List String
  | [], acc => [String.mk acc.reverse]
  | c :: rest, acc =>
    if c = '.' then String.mk acc.reverse :: splitDotAux rest []
    else splitDotAux rest (c :: acc)

/-- Embedding of `event_key.split(".")` as a list of segments. -/
def splitDot (s : String) : List String :=
  splitDotAux s.toList []

/-- The descent loop of `get_event_value`: for each path segment, fail on a
non-object, else index into it. -/
def resolvePath : List String → Value → Option Value
  | [], ret => some ret
  | key :: rest, ret =>
    if ret.isObject then resolvePath rest (ret.index key) else none

/-- Embedding of `rule::get_event_value`: empty key resolves to absent; otherwise the key
is replaced by its alias if configured, split on `.`, and the record is
descended segment by segment. -/
def rule.get_event_value (cfg : AliasConfig) (key : String) (event_value : Value) :
    Option Value :=
  if key.length = 0 then none
  else
    let event_key := (cfg.get_event_key key).getD key
    resolvePath (splitDot event_key) event_value

/-- Embedding of `rule::concat_selection_key`: fold of " -> " over the key list, seeded
with "detection -> selection". -/
def concat_selection_key (key_list : List String) : String :=
  key_list.foldl (fun acc cur => acc ++ " -> " ++ cur) "detection -> selection"

/-- Modelled from the spec: a compiled regular expression of the external
`regex` crate.  Only literal patterns are exercised by the engine's claims,
so a compiled pattern is embedded as its pattern string, with `find_iter`
giving literal non-overlapping leftmost occurrences. -/
structure Regex where
  pattern : String
deriving Repr

/-- Modelled from the spec: a pattern fails to compile when malformed; the
model's well-formedness criterion is balanced parentheses, which accepts
every literal pattern the claims use and rejects the malformed pattern
`(` that the real engine also rejects. -/
def regexCompilable (p : String) : Bool :=
  p.toList.count '(' = p.toList.count ')'

/-- Modelled from the spec: `Regex::new`, failing exactly on patterns that
do not compile. -/
def Regex.new (p : String) : Option Regex :=
  if regexCompilable p then some ⟨p⟩ else none

/-- Literal non-overlapping leftmost occurrence search: `skip` counts
characters still covered by the previous match. -/
def findOccsAux (p : List Char) : List Char → Nat → List (List Char)
  | [], _ => []
  | _ :: rest, Nat.succ k => findOccsAux p rest k
  | c :: rest, 0 =>
    if p.isPrefixOf (c :: rest) then p :: findOccsAux p rest (p.length - 1)
    else findOccsAux p rest 0

/-- Modelled from the spec: `Regex::find_iter`, the matched substrings in
order.  An empty pattern matches the empty string at every position. -/
def Regex.findIter (re : Regex) (s : String) : List String :=
  if re.pattern.isEmpty then List.replicate (s.length + 1) ""
  else (findOccsAux re.pattern.toList s.toList 0).map String.mk

/-- Embedding of `RegexMatcher`: the one `LeafMatcher`, holding an optionally compiled
pattern. -/
structure RegexMatcher where
  re : Option Regex
deriving Repr

/-- Embedding of `RegexMatcher::new`: the matcher starts with no pattern. -/
def RegexMatcher.new : RegexMatcher :=
  { re := none }

/-- Embedding of `RegexMatcher::is_regex_fullmatch`: some substring matched by the
pattern equals the entire value. -/
def is_regex_fullmatch (re : Regex) (value : String) : Bool :=
  (re.findIter value).any fun m => m = value

/-- Embedding of `RegexMatcher::is_target_key`: the regex matcher claims a leaf exactly
when there are no modifier segments after the field name. -/
def RegexMatcher.is_target_key (key_list : List String) : Bool :=
  key_list.isEmpty

/-- Embedding of `RegexMatcher::init`.  Null selector: store no pattern and succeed.
Otherwise stringify the scalar, fail on non-scalar Yaml, compile the
pattern, fail on a malformed pattern.  Faithfully to the source, the
successfully compiled pattern is *not* stored in `re` (the assignment is
missing in the code); the updated matcher is returned alongside the
result. -/
def RegexMatcher.init (self : RegexMatcher) (key_list : List String)
    (select_value : Yaml) : RegexMatcher × Except (List String) Unit :=
  if select_value.isNull then
    ({ re := none }, .ok ())
  else
    let yaml_value : Option String :=
      match select_value with
      | .boolean b => some (toString b)
      | .integer i => some (toString i)
      | .real r => some r
      | .string s => some s
      | _ => none
    match yaml_value with
    | none =>
      (self, .error [s!"unknown error occured. [key:{concat_selection_key key_list}]"])
    | some yaml_str =>
      match Regex.new yaml_str with
      | none =>
        (self,
         .error [s!"cannot parse regex. [regex:{yaml_str}, key:{concat_selection_key key_list}]"])
      | some _ => (self, .ok ())

/-- Embedding of `RegexMatcher::is_match`.  With no bound pattern the result is the
emptiness test (value absent, null, or empty string); with a bound pattern,
full-string regex matching on the stringified scalar, with composites never
matching. -/
def RegexMatcher.is_match (self : RegexMatcher) (event_value : Option Value) :
    Bool :=
  let is_event_value_null :=
    match event_value with
    | none => true
    | some v => v.isNull || ((v.asStr.getD " ").length = 0)
  match self.re with
  | none => is_event_value_null
  | some re =>
    match event_value.getD Value.null with
    | .bool b => is_regex_fullmatch re (toString b)
    | .str s => is_regex_fullmatch re s
    | .num n => is_regex_fullmatch re (toString n)
    | _ => false

/-- Embedding of `LeafSelectionNode`: field-key path, raw configured Yaml value, and the
matcher bound by validation (absent until then). -/
structure LeafSelectionNode where
  key_list : List String
  select_value : Yaml
  matcher : Option RegexMatcher
deriving Repr

/-- Embedding of `LeafSelectionNode::new`. -/
def LeafSelectionNode.new (key_list : List String) (value_yaml : Yaml) :
    LeafSelectionNode :=
  { key_list := key_list, select_value := value_yaml, matcher := none }

/-- Embedding of `LeafSelectionNode::get_event_value`: absent on an empty key list, else
resolution of the first path segment. -/
def LeafSelectionNode.get_event_value (self : LeafSelectionNode)
    (cfg : AliasConfig) (event_value : Value) : Option Value :=
  match self.key_list with
  | [] => none
  | key :: _ => rule.get_event_value cfg key event_value

/-- Embedding of `LeafSelectionNode::init`: strip the first path segment
(`match_key_list.remove(0)`, which panics on an empty key list — embedded as
`none`); find the first matcher claiming the remaining segments (the matcher
list holds only `RegexMatcher`); if none claims them, a single
"Found unknown key" error; else bind via the matcher's `init`, the matcher
staying bound either way. -/
def LeafSelectionNode.init (self : LeafSelectionNode) :
    Option (LeafSelectionNode × Except (List String) Unit) :=
  match self.key_list with
  | [] => none
  | _ :: match_key_list =>
    if RegexMatcher.is_target_key match_key_list then
      let p := RegexMatcher.new.init match_key_list self.select_value
      some ({ self with matcher := some p.1 }, p.2)
    else
      some ({ self with matcher := none },
        .error [s!"Found unknown key. key:{concat_selection_key match_key_list}"])

/-- Embedding of `SelectionNode`: the closed variant form of the `SelectionNode` trait —
`AndSelectionNode`, `OrSelectionNode` and `LeafSelectionNode`, the
combinators holding their ordered child lists. -/
inductive SelectionNode where
  | andNode (child_nodes : List SelectionNode) : SelectionNode
  | orNode (child_nodes : List SelectionNode) : SelectionNode
  | leaf (l : LeafSelectionNode) : SelectionNode
deriving Repr

mutual

/-- Embedding of `SelectionNode::select`: conjunction over `And` children, disjunction
over `Or` children; a leaf with no bound matcher is false, else the field is
resolved and delegated to the matcher's `is_match`. -/
def SelectionNode.select (cfg : AliasConfig) (event_record : Value) :
    SelectionNode → Bool
  | .andNode cs => selectAll cfg event_record cs
  | .orNode cs => selectAny cfg event_record cs
  | .leaf l =>
    match l.matcher with
    | none => false
    | some m => m.is_match (l.get_event_value cfg event_record)

/-- Embedding of `iter().all` over child nodes, short-circuiting as in the source. -/
def selectAll (cfg : AliasConfig) (event_record : Value) :
    List SelectionNode → Bool
  | [] => true
  | c :: cs => SelectionNode.select cfg event_record c && selectAll cfg event_record cs

/-- Embedding of `iter().any` over child nodes, short-circuiting as in the source. -/
def selectAny (cfg : AliasConfig) (event_record : Value) :
    List SelectionNode → Bool
  | [] => false
  | c :: cs => SelectionNode.select cfg event_record c || selectAny cfg event_record cs

end

mutual

/-- Embedding of `SelectionNode::init` over the tree: `And`/`Or` run `init` on every
child, concatenate all error lists in child order, and succeed only when no
errors accumulated; a leaf runs `LeafSelectionNode::init`.  `none` models a
propagating panic. -/
def SelectionNode.init : SelectionNode → Option (SelectionNode × Except (List String) Unit)
  | .andNode cs =>
    match initList cs with
    | none => none
    | some (cs2, errs) =>
      some (.andNode cs2, if errs.isEmpty then .ok () else .error errs)
  | .orNode cs =>
    match initList cs with
    | none => none
    | some (cs2, errs) =>
      some (.orNode cs2, if errs.isEmpty then .ok () else .error errs)
  | .leaf l =>
    match LeafSelectionNode.init l with
    | none => none
    | some (l2, r) => some (.leaf l2, r)

/-- The `map` + `fold` of `AndSelectionNode::init` / `OrSelectionNode::init`:
each child contributes its error list (empty on success), concatenated in
child order. -/
def initList : List SelectionNode → Option (List SelectionNode × List String)
  | [] => some ([], [])
  | c :: cs =>
    match SelectionNode.init c with
    | none => none
    | some (c2, r) =>
      match initList cs with
      | none => none
      | some (cs2, errs) =>
        some (c2 :: cs2, (match r with | .ok _ => [] | .error es => es) ++ errs)

end

mutual

/-- Embedding of `rule::parse_selection_recursively`: a hash is an `And` over its entries
(the entry key, which must be a string — `as_str().unwrap()` panics
otherwise, embedded as `none` — is appended to the key path); an array is an
`Or` over its elements with the unchanged key path; anything else is a
leaf. -/
def parse_selection_recursively (key_list : List String) :
    Yaml → Option SelectionNode
  | .hash entries =>
    match parseHashEntries key_list entries with
    | none => none
    | some cs => some (.andNode cs)
  | .array xs =>
    match parseArrayElems key_list xs with
    | none => none
    | some cs => some (.orNode cs)
  | y => some (.leaf (LeafSelectionNode.new key_list y))

/-- The hash-entry loop of `parse_selection_recursively`. -/
def parseHashEntries (key_list : List String) :
    List (Yaml × Yaml) → Option (List SelectionNode)
  | [] => some []
  | (k, v) :: rest =>
    match k.asStr with
    | none => none
    | some ks =>
      match parse_selection_recursively (key_list ++ [ks]) v with
      | none => none
      | some child =>
        match parseHashEntries key_list rest with
        | none => none
        | some others => some (child :: others)

/-- The array-element loop of `parse_selection_recursively`. -/
def parseArrayElems (key_list : List String) :
    List Yaml → Option (List SelectionNode)
  | [] => some []
  | y :: rest =>
    match parse_selection_recursively key_list y with
    | none => none
    | some child =>
      match parseArrayElems key_list rest with
      | none => none
      | some others => some (child :: others)

end

/-- Embedding of `rule::parse_selection`: absent when `detection.selection` is a bad
value, else the compiled subtree starting from an empty key path.  The outer
`Option` models a panic inside the recursion. -/
def parse_selection (yaml : Yaml) : Option (Option SelectionNode) :=
  let selection_yaml := (yaml.index "detection").index "selection"
  if selection_yaml.isBadvalue then some none
  else
    match parse_selection_recursively [] selection_yaml with
    | none => none
    | some t => some (some t)

/-- Embedding of `DetectionNode`. -/
structure DetectionNode where
  selection : Option SelectionNode

/-- Embedding of `rule::parse_detection`: absent when the document has no `detection`
key. -/
def parse_detection (yaml : Yaml) : Option (Option DetectionNode) :=
  if (yaml.index "detection").isBadvalue then some none
  else
    match parse_selection yaml with
    | none => none
    | some sel => some (some { selection := sel })

/-- Embedding of `RuleNode`: the raw document plus the optionally compiled detection. -/
structure RuleNode where
  yaml : Yaml
  detection : Option DetectionNode

/-- Embedding of `rule::parse_rule`. -/
def parse_rule (yaml : Yaml) : Option RuleNode :=
  match parse_detection yaml with
  | none => none
  | some d => some { yaml := yaml, detection := d }

/-- Embedding of `DetectionNode::init`: trivially Ok with no selection. -/
def DetectionNode.init (self : DetectionNode) :
    Option (DetectionNode × Except (List String) Unit) :=
  match self.selection with
  | none => some (self, .ok ())
  | some sel =>
    match SelectionNode.init sel with
    | none => none
    | some (s2, r) => some ({ selection := some s2 }, r)

/-- Embedding of `RuleNode::init`: trivially Ok with no detection. -/
def RuleNode.init (self : RuleNode) :
    Option (RuleNode × Except (List String) Unit) :=
  match self.detection with
  | none => some (self, .ok ())
  | some d =>
    match DetectionNode.init d with
    | none => none
    | some (d2, r) => some ({ self with detection := some d2 }, r)

/-- Embedding of `RuleNode::select`: false with no detection or no selection, else the
root node's `select`. -/
def RuleNode.select (self : RuleNode) (cfg : AliasConfig)
    (event_record : Value) : Bool :=
  match self.detection with
  | none => false
  | some d =>
    match d.selection with
    | none => false
    | some sel => SelectionNode.select cfg event_record sel

mutual
/-- Predicate on documents: every mapping key anywhere in the node is a
string (so `as_str().unwrap()` cannot panic during compilation). -/
def stringKeysOnly : Yaml → Bool
  | .hash entries => stringKeysOnlyEntries entries
  | .array xs => stringKeysOnlyList xs
  | _ => true
def stringKeysOnlyEntries : List (Yaml × Yaml) → Bool
  | [] => true
  | (k, v) :: rest => k.asStr.isSome && stringKeysOnly v && stringKeysOnlyEntries rest
def stringKeysOnlyList : List Yaml → Bool
  | [] => true
  | y :: rest => stringKeysOnly y && stringKeysOnlyList rest
end

mutual
/-- Predicate on compiled trees: every leaf's field-key path is
non-empty. -/
def allLeavesNonempty : SelectionNode → Bool
  | .andNode cs => allLeavesNonemptyList cs
  | .orNode cs => allLeavesNonemptyList cs
  | .leaf l => !l.key_list.isEmpty
def allLeavesNonemptyList : List SelectionNode → Bool
  | [] => true
  | c :: cs => allLeavesNonempty c && allLeavesNonemptyList cs
end

/-- The scenario document `{detection:{selection:{EventID:4624,
LogonType:[2,10]}}}`. -/
def c1doc : Yaml :=
  .hash [(.string "detection", .hash [(.string "selection", .hash
    [(.string "EventID", .integer 4624),
     (.string "LogonType", .array [.integer 2, .integer 10])])])]

/-- The entries of the scenario document's selection mapping. -/
def c1sel : List (Yaml × Yaml) :=
  [(.string "EventID", .integer 4624),
   (.string "LogonType", .array [.integer 2, .integer 10])]

/-- The scenario's compiled selection tree:
`AndNode(Leaf(EventID,4624), OrNode(Leaf(LogonType,2), Leaf(LogonType,10)))`. -/
def c1tree : SelectionNode :=
  .andNode
    [.leaf (LeafSelectionNode.new ["EventID"] (.integer 4624)),
     .orNode
       [.leaf (LeafSelectionNode.new ["LogonType"] (.integer 2)),
        .leaf (LeafSelectionNode.new ["LogonType"] (.integer 10))]]

/-- A leaf as it stands after validation bound the regex matcher: the
matcher is present but — the assignment being missing in
`RegexMatcher::init` — still holds no compiled pattern. -/
def boundLeaf (ks : List String) (y : Yaml) : LeafSelectionNode :=
  { key_list := ks, select_value := y, matcher := some { re := none } }

/-- The scenario's selection tree after validation. -/
def c1treeInit : SelectionNode :=
  .andNode
    [.leaf (boundLeaf ["EventID"] (.integer 4624)),
     .orNode
       [.leaf (boundLeaf ["LogonType"] (.integer 2)),
        .leaf (boundLeaf ["LogonType"] (.integer 10))]]

/-- The scenario document compiled to a rule. -/
def c1rule : RuleNode :=
  { yaml := c1doc, detection := some { selection := some c1tree } }

/-- The scenario rule after validation. -/
def c1ruleInit : RuleNode :=
  { yaml := c1doc, detection := some { selection := some c1treeInit } }

/-- The record `{EventID:4624, LogonType:10}`. -/
def c1rec1 : Value := .obj [("EventID", .num 4624), ("LogonType", .num 10)]

/-- The record `{EventID:4624, LogonType:3}`. -/
def c1rec2 : Value := .obj [("EventID", .num 4624), ("LogonType", .num 3)]

/-- The record `{EventID:4625, LogonType:2}`. -/
def c1rec3 : Value := .obj [("EventID", .num 4625), ("LogonType", .num 2)]

/-- A document whose selection mapping has a non-string (integer) key. -/
def c3doc : Yaml :=
  .hash [(.string "detection", .hash [(.string "selection", .hash
    [(.integer 1, .null)])])]

/-- A document whose selection section is the bare scalar `5`. -/
def c4doc : Yaml :=
  .hash [(.string "detection", .hash [(.string "selection", .integer 5)])]

/-- The rule compiled from `c4doc`: a single leaf with an empty field-key
path. -/
def c4rule : RuleNode :=
  { yaml := c4doc,
    detection := some { selection := some (.leaf (LeafSelectionNode.new [] (.integer 5))) } }

/-- Three sibling leaves, the first and third carrying a modifier segment no
matcher claims. -/
def c5tree : SelectionNode :=
  .andNode
    [.leaf (LeafSelectionNode.new ["A", "bad1"] (.integer 1)),
     .leaf (LeafSelectionNode.new ["B"] (.integer 2)),
     .leaf (LeafSelectionNode.new ["C", "bad2"] (.integer 3))]

/-- The three sibling leaves after validation: the middle one bound, the
unbindable ones left without a matcher. -/
def c5treeInit : SelectionNode :=
  .andNode
    [.leaf { key_list := ["A", "bad1"], select_value := .integer 1, matcher := none },
     .leaf (boundLeaf ["B"] (.integer 2)),
     .leaf { key_list := ["C", "bad2"], select_value := .integer 3, matcher := none }]

mutual
/-- Compilation succeeds on any node whose mapping keys are all strings. -/
theorem psr_isSome (kl : List String) (y : Yaml) (h : stringKeysOnly y = true) :
    (parse_selection_recursively kl y).isSome = true := by
  cases y with
  | hash entries =>
    have ih := phe_isSome kl entries (by simpa [stringKeysOnly] using h)
    simp only [parse_selection_recursively]
    cases hE : parseHashEntries kl entries with
    | none => rw [hE] at ih; simp at ih
    | some cs => simp
  | array xs =>
    have ih := pae_isSome kl xs (by simpa [stringKeysOnly] using h)
    simp only [parse_selection_recursively]
    cases hE : parseArrayElems kl xs with
    | none => rw [hE] at ih; simp at ih
    | some cs => simp
  | real s => simp [parse_selection_recursively]
  | integer i => simp [parse_selection_recursively]
  | string s => simp [parse_selection_recursively]
  | boolean b => simp [parse_selection_recursively]
  | null => simp [parse_selection_recursively]
  | badValue => simp [parse_selection_recursively]

/-- Hash-entry compilation succeeds when every key is a string. -/
theorem phe_isSome (kl : List String) (entries : List (Yaml × Yaml))
    (h : stringKeysOnlyEntries entries = true) :
    (parseHashEntries kl entries).isSome = true := by
  cases entries with
  | nil => simp [parseHashEntries]
  | cons e rest =>
    obtain ⟨k, v⟩ := e
    simp only [stringKeysOnlyEntries, Bool.and_eq_true] at h
    obtain ⟨⟨hk, hv⟩, hrest⟩ := h
    have ih2 := phe_isSome kl rest hrest
    simp only [parseHashEntries]
    cases hks : k.asStr with
    | none => rw [hks] at hk; simp at hk
    | some ks =>
      have ih1 := psr_isSome (kl ++ [ks]) v hv
      cases hc : parse_selection_recursively (kl ++ [ks]) v with
      | none => rw [hc] at ih1; simp at ih1
      | some child =>
        cases hr : parseHashEntries kl rest with
        | none => rw [hr] at ih2; simp at ih2
        | some others => simp [hc]

/-- Array-element compilation succeeds when every element compiles. -/
theorem pae_isSome (kl : List String) (xs : List Yaml)
    (h : stringKeysOnlyList xs = true) :
    (parseArrayElems kl xs).isSome = true := by
  cases xs with
  | nil => simp [parseArrayElems]
  | cons y rest =>
    simp only [stringKeysOnlyList, Bool.and_eq_true] at h
    obtain ⟨hy, hrest⟩ := h
    have ih1 := psr_isSome kl y hy
    have ih2 := pae_isSome kl rest hrest
    simp only [parseArrayElems]
    cases hc : parse_selection_recursively kl y with
    | none => rw [hc] at ih1; simp at ih1
    | some child =>
      cases hr : parseArrayElems kl rest with
      | none => rw [hr] at ih2; simp at ih2
      | some others => simp [hc]
end

mutual
/-- Compilation from a non-empty key path yields only leaves with non-empty
field-key paths. -/
theorem psr_leaves (kl : List String) (y : Yaml) (t : SelectionNode)
    (hkl : kl ≠ []) (h : parse_selection_recursively kl y = some t) :
    allLeavesNonempty t = true := by
  cases y with
  | hash entries =>
    simp only [parse_selection_recursively] at h
    cases hE : parseHashEntries kl entries with
    | none => rw [hE] at h; simp at h
    | some cs =>
      rw [hE] at h
      simp only [Option.some.injEq] at h
      subst h
      simpa [allLeavesNonempty] using phe_leaves kl entries cs hE
  | array xs =>
    simp only [parse_selection_recursively] at h
    cases hE : parseArrayElems kl xs with
    | none => rw [hE] at h; simp at h
    | some cs =>
      rw [hE] at h
      simp only [Option.some.injEq] at h
      subst h
      simpa [allLeavesNonempty] using pae_leaves kl xs cs hkl hE
  | real s =>
    simp only [parse_selection_recursively, Option.some.injEq] at h
    subst h
    simp [allLeavesNonempty, LeafSelectionNode.new, hkl]
  | integer i =>
    simp only [parse_selection_recursively, Option.some.injEq] at h
    subst h
    simp [allLeavesNonempty, LeafSelectionNode.new, hkl]
  | string s =>
    simp only [parse_selection_recursively, Option.some.injEq] at h
    subst h
    simp [allLeavesNonempty, LeafSelectionNode.new, hkl]
  | boolean b =>
    simp only [parse_selection_recursively, Option.some.injEq] at h
    subst h
    simp [allLeavesNonempty, LeafSelectionNode.new, hkl]
  | null =>
    simp only [parse_selection_recursively, Option.some.injEq] at h
    subst h
    simp [allLeavesNonempty, LeafSelectionNode.new, hkl]
  | badValue =>
    simp only [parse_selection_recursively, Option.some.injEq] at h
    subst h
    simp [allLeavesNonempty, LeafSelectionNode.new, hkl]

/-- Children compiled from hash entries always extend the key path, so their
leaves all have non-empty field-key paths. -/
theorem phe_leaves (kl : List String) (entries : List (Yaml × Yaml))
    (ts : List SelectionNode) (h : parseHashEntries kl entries = some ts) :
    allLeavesNonemptyList ts = true := by
  cases entries with
  | nil =>
    simp only [parseHashEntries, Option.some.injEq] at h
    subst h
    simp [allLeavesNonemptyList]
  | cons e rest =>
    obtain ⟨k, v⟩ := e
    simp only [parseHashEntries] at h
    cases hks : k.asStr with
    | none => rw [hks] at h; simp at h
    | some ks =>
      rw [hks] at h
      dsimp only at h
      cases hc : parse_selection_recursively (kl ++ [ks]) v with
      | none => rw [hc] at h; simp at h
      | some child =>
        rw [hc] at h
        dsimp only at h
        cases hr : parseHashEntries kl rest with
        | none => rw [hr] at h; simp at h
        | some others =>
          rw [hr] at h
          dsimp only at h
          simp only [Option.some.injEq] at h
          subst h
          have h1 := psr_leaves (kl ++ [ks]) v child (by simp) hc
          have h2 := phe_leaves kl rest others hr
          simp [allLeavesNonemptyList, h1, h2]

/-- Children compiled from array elements under a non-empty key path have
only leaves with non-empty field-key paths. -/
theorem pae_leaves (kl : List String) (xs : List Yaml)
    (ts : List SelectionNode) (hkl : kl ≠ [])
    (h : parseArrayElems kl xs = some ts) :
    allLeavesNonemptyList ts = true := by
  cases xs with
  | nil =>
    simp only [parseArrayElems, Option.some.injEq] at h
    subst h
    simp [allLeavesNonemptyList]
  | cons y rest =>
    simp only [parseArrayElems] at h
    cases hc : parse_selection_recursively kl y with
    | none => rw [hc] at h; simp at h
    | some child =>
      rw [hc] at h
      dsimp only at h
      cases hr : parseArrayElems kl rest with
      | none => rw [hr] at h; simp at h
      | some others =>
        rw [hr] at h
        dsimp only at h
        simp only [Option.some.injEq] at h
        subst h
        have h1 := psr_leaves kl y child hkl hc
        have h2 := pae_leaves kl rest others hkl hr
        simp [allLeavesNonemptyList, h1, h2]
end

mutual
/-- Validation is well-defined (no panic) on a tree whose leaves all have
non-empty field-key paths. -/
theorem init_isSome (n : SelectionNode) (h : allLeavesNonempty n = true) :
    (SelectionNode.init n).isSome = true := by
  cases n with
  | andNode cs =>
    have ih := initList_isSome cs (by simpa [allLeavesNonempty] using h)
    simp only [SelectionNode.init]
    cases hE : initList cs with
    | none => rw [hE] at ih; simp at ih
    | some p => simp
  | orNode cs =>
    have ih := initList_isSome cs (by simpa [allLeavesNonempty] using h)
    simp only [SelectionNode.init]
    cases hE : initList cs with
    | none => rw [hE] at ih; simp at ih
    | some p => simp
  | leaf l =>
    simp only [allLeavesNonempty, Bool.not_eq_true'] at h
    simp only [SelectionNode.init]
    cases hkl : l.key_list with
    | nil => rw [hkl] at h; simp at h
    | cons k rest =>
      simp only [LeafSelectionNode.init, hkl]
      by_cases ht : RegexMatcher.is_target_key rest = true
      · simp [ht]
      · simp [ht]

/-- Validation of a child list is well-defined when every child's leaves
have non-empty field-key paths. -/
theorem initList_isSome (cs : List SelectionNode)
    (h : allLeavesNonemptyList cs = true) :
    (initList cs).isSome = true := by
  cases cs with
  | nil => simp [initList]
  | cons c rest =>
    simp only [allLeavesNonemptyList, Bool.and_eq_true] at h
    obtain ⟨hc, hrest⟩ := h
    have ih1 := init_isSome c hc
    have ih2 := initList_isSome rest hrest
    simp only [initList]
    cases h1 : SelectionNode.init c with
    | none => rw [h1] at ih1; simp at ih1
    | some p =>
      cases h2 : initList rest with
      | none => rw [h2] at ih2; simp at ih2
      | some q => simp [h1]
end

/-- Validation of a concatenated child list concatenates the updated
children and the error lists, in order, failing only by a child's panic. -/
theorem initList_append (xs ys : List SelectionNode) :
    initList (xs ++ ys) =
      (initList xs).bind fun p =>
        (initList ys).map fun q => (p.1 ++ q.1, p.2 ++ q.2) := by
  induction xs with
  | nil =>
    cases h : initList ys with
    | none => simp [initList, h]
    | some q => simp [initList, h]
  | cons c rest ih =>
    simp only [List.cons_append, initList, List.append_eq]
    cases h1 : SelectionNode.init c with
    | none => simp
    | some p =>
      obtain ⟨c2, r⟩ := p
      dsimp only
      rw [ih]
      cases h2 : initList rest with
      | none =>
        cases h3 : initList ys <;> simp
      | some q =>
        obtain ⟨cs2, errs⟩ := q
        cases h3 : initList ys with
        | none => simp
        | some p3 =>
          obtain ⟨cs3, errs3⟩ := p3
          simp

/-- A string has length zero exactly when it is empty. -/
theorem string_length_zero_iff (s : String) : (s.length = 0) ↔ s = "" := by
  cases s with
  | mk data =>
    cases data with
    | nil => simp [String.length]
    | cons c cs =>
      simp only [String.length]
      constructor
      · intro h; simp at h
      · intro h
        have : (String.mk (c :: cs)).data = ("" : String).data := by rw [h]
        simp at this

/-- With no bound pattern, `is_match` holds exactly on an absent value, a
JSON null, or an empty string. -/
theorem is_match_unbound_iff (ev : Option Value) :
    (({ re := none } : RegexMatcher).is_match ev = true) ↔
      (ev = none ∨ ev = some .null ∨ ev = some (.str "")) := by
  cases ev with
  | none => simp [RegexMatcher.is_match]
  | some v =>
    cases v <;>
      simp [RegexMatcher.is_match, Value.isNull, Value.asStr, string_length_zero_iff]

/-- C1: the scenario document compiles to
`AndNode(Leaf(EventID,4624), OrNode(Leaf(LogonType,2), Leaf(LogonType,10)))`
and validation succeeds, but — `RegexMatcher::init` never storing the
compiled pattern — `Rule.select` evaluates the record
`{EventID:4624, LogonType:10}` to `false`, where the claim (and the spec's
bind contract) requires `true`; the other two records evaluate to `false`
as the claim states. -/
theorem c1_scenario_select_diverges :
    parse_rule c1doc = some c1rule ∧
    RuleNode.init c1rule = some (c1ruleInit, .ok ()) ∧
    c1ruleInit.select [] c1rec1 = false ∧
    c1ruleInit.select [] c1rec2 = false ∧
    c1ruleInit.select [] c1rec3 = false :=
  ⟨rfl, rfl, rfl, rfl, rfl⟩

/-- C2: the pattern `abc` compiles, and `init` on the non-null scalar
selector `"abc"` succeeds — yet the matcher's optional compiled pattern is
still absent (`re = none`), against the claimed
"present iff the configured value was not null". -/
theorem c2_init_drops_compiled_pattern :
    Regex.new "abc" = some ⟨"abc"⟩ ∧
    RegexMatcher.new.init [] (.string "abc") = ({ re := none }, .ok ()) :=
  ⟨rfl, rfl⟩

/-- C3, counterexample: a document whose selection mapping has an integer
key makes compilation panic (`as_str().unwrap()`), embedded as `none` —
compilation does not always return a Rule. -/
theorem c3_nonstring_key_panics : parse_rule c3doc = none := rfl

/-- C3, amended: for every document whose mapping keys inside
`detection.selection` are all strings, compilation returns a Rule. -/
theorem c3_compile_succeeds_on_string_keys (y : Yaml)
    (h : stringKeysOnly ((y.index "detection").index "selection") = true) :
    (parse_rule y).isSome = true := by
  have hsel : (parse_selection y).isSome = true := by
    unfold parse_selection
    by_cases hs : ((y.index "detection").index "selection").isBadvalue = true
    · simp [hs]
    · have hp := psr_isSome [] _ h
      cases hq : parse_selection_recursively [] ((y.index "detection").index "selection") with
      | none => rw [hq] at hp; simp at hp
      | some t => simp [hs, hq]
  unfold parse_rule parse_detection
  by_cases hd : (y.index "detection").isBadvalue = true
  · simp [hd]
  · cases hq : parse_selection y with
    | none => rw [hq] at hsel; simp at hsel
    | some sel => simp [hd, hq]

/-- C3, witness: the scenario document has only string keys and compiles. -/
theorem c3_compile_succeeds_witness :
    stringKeysOnly ((c1doc.index "detection").index "selection") = true ∧
    (parse_rule c1doc).isSome = true :=
  ⟨by rfl, c3_compile_succeeds_on_string_keys c1doc (by rfl)⟩

/-- C4, counterexample: a document whose selection section is the scalar `5`
compiles to a leaf whose field-key path is empty, and validation of that
rule panics (`match_key_list.remove(0)` on an empty vector), embedded as
`none` — against the claimed "non-empty for every document shape, including
a selection section that is itself a scalar". -/
theorem c4_scalar_selection_empty_key_list :
    parse_rule c4doc = some c4rule ∧
    (LeafSelectionNode.new [] (.integer 5)).key_list = [] ∧
    RuleNode.init c4rule = none :=
  ⟨rfl, rfl, rfl⟩

/-- C4, amended: when the selection section is a mapping, every compiled
leaf's field-key path is non-empty, and consequently validation is
well-defined (does not panic) on the compiled tree. -/
theorem c4_mapping_selection_leaves_nonempty (entries : List (Yaml × Yaml))
    (t : SelectionNode)
    (h : parse_selection_recursively [] (.hash entries) = some t) :
    allLeavesNonempty t = true ∧ (SelectionNode.init t).isSome = true := by
  have hleaves : allLeavesNonempty t = true := by
    simp only [parse_selection_recursively] at h
    cases hE : parseHashEntries [] entries with
    | none => rw [hE] at h; simp at h
    | some cs =>
      rw [hE] at h
      simp only [Option.some.injEq] at h
      subst h
      simpa [allLeavesNonempty] using phe_leaves [] entries cs hE
  exact ⟨hleaves, init_isSome t hleaves⟩

/-- C4, witness: the scenario selection mapping compiles to a tree whose
leaves all have non-empty paths and whose validation is well-defined. -/
theorem c4_mapping_selection_witness :
    allLeavesNonempty c1tree = true ∧ (SelectionNode.init c1tree).isSome = true :=
  c4_mapping_selection_leaves_nonempty c1sel c1tree (by rfl)

/-- C5: validation of a combinator node concatenates the children's error
lists in child order without stopping at the first failure (stated as the
append homomorphism of the child-list validator), and the tree with three
sibling leaves of which the first and third have unbindable modifier
segments reports exactly those two errors, in order. -/
theorem c5_validation_aggregates_errors :
    (∀ xs ys : List SelectionNode,
      initList (xs ++ ys) =
        (initList xs).bind fun p =>
          (initList ys).map fun q => (p.1 ++ q.1, p.2 ++ q.2)) ∧
    SelectionNode.init c5tree =
      some (c5treeInit,
        .error ["Found unknown key. key:detection -> selection -> bad1",
                "Found unknown key. key:detection -> selection -> bad2"]) :=
  ⟨initList_append, by rfl⟩

/-- C6: for every record and alias configuration, an `AndSelectionNode`
with zero children selects `true` and an `OrSelectionNode` with zero
children selects `false`. -/
theorem c6_vacuous_and_or (cfg : AliasConfig) (event_record : Value) :
    SelectionNode.select cfg event_record (.andNode []) = true ∧
    SelectionNode.select cfg event_record (.orNode []) = false :=
  ⟨rfl, rfl⟩

/-- C7: with a bound compiled pattern, `is_match` on a scalar field value is
exactly "some substring matched by the pattern equals the entire stringified
value"; in particular the pattern `abc` does not match `xabcx` or `abcd` but
matches `abc`. -/
theorem c7_fullmatch_semantics :
    (∀ (r : Regex) (s : String),
      ({ re := some r } : RegexMatcher).is_match (some (.str s)) =
        (r.findIter s).any (fun m => m = s)) ∧
    (∀ (r : Regex) (b : Bool),
      ({ re := some r } : RegexMatcher).is_match (some (.bool b)) =
        (r.findIter (toString b)).any (fun m => m = toString b)) ∧
    (∀ (r : Regex) (n : Int),
      ({ re := some r } : RegexMatcher).is_match (some (.num n)) =
        (r.findIter (toString n)).any (fun m => m = toString n)) ∧
    ({ re := some ⟨"abc"⟩ } : RegexMatcher).is_match (some (.str "xabcx")) = false ∧
    ({ re := some ⟨"abc"⟩ } : RegexMatcher).is_match (some (.str "abcd")) = false ∧
    ({ re := some ⟨"abc"⟩ } : RegexMatcher).is_match (some (.str "abc")) = true :=
  ⟨fun _ _ => rfl, fun _ _ => rfl, fun _ _ => rfl, rfl, rfl, rfl⟩

/-- C8: a null selector binds no pattern, and then `is_match` is true
exactly on an absent value, a JSON null, or an empty string — false on
every non-empty value of any type, including `false`, `0`, and
composites. -/
theorem c8_null_selector_matches_empty :
    (∀ kl : List String, RegexMatcher.new.init kl .null = ({ re := none }, .ok ())) ∧
    (∀ ev : Option Value,
      (({ re := none } : RegexMatcher).is_match ev = true) ↔
        (ev = none ∨ ev = some .null ∨ ev = some (.str ""))) ∧
    ({ re := none } : RegexMatcher).is_match (some (.bool false)) = false ∧
    ({ re := none } : RegexMatcher).is_match (some (.num 0)) = false ∧
    ({ re := none } : RegexMatcher).is_match (some (.arr [])) = false ∧
    ({ re := none } : RegexMatcher).is_match (some (.obj [])) = false :=
  ⟨fun _ => rfl, is_match_unbound_iff, rfl, rfl, rfl, rfl⟩

/-- C9, counterexample: a leaf with path `[EventID, foo]` and no claiming
matcher reports the path rendered from the modifier segments only
(`detection -> selection -> foo`), which differs from the rendering of all
segments of the field-key path that the claim requires. -/
theorem c9_error_path_drops_field_name :
    (LeafSelectionNode.new ["EventID", "foo"] .null).init =
      some ({ key_list := ["EventID", "foo"], select_value := .null, matcher := none },
        .error ["Found unknown key. key:" ++ concat_selection_key ["foo"]]) ∧
    ("Found unknown key. key:" ++ concat_selection_key ["foo"]) ≠
      ("Found unknown key. key:" ++ concat_selection_key ["EventID", "foo"]) := by
  constructor
  · simp [LeafSelectionNode.init, LeafSelectionNode.new, RegexMatcher.is_target_key,
      RegexMatcher.new, toString, concat_selection_key]
  · decide

/-- C9, amended: an unclaimed leaf reports a single error naming the path
rendered from the modifier segments (all segments after the field name),
and a regex compile failure reports the offending pattern with the path
rendered from the (empty) modifier segments. -/
theorem c9_error_naming_amended (k : String) (rest : List String) (v : Yaml)
    (hrest : rest ≠ []) :
    ((LeafSelectionNode.new (k :: rest) v).init =
      some ({ key_list := k :: rest, select_value := v, matcher := none },
        .error ["Found unknown key. key:" ++ concat_selection_key rest])) ∧
    ((LeafSelectionNode.new ["F"] (.string "(")).init =
      some (boundLeaf ["F"] (.string "("),
        .error ["cannot parse regex. [regex:(, key:" ++ concat_selection_key [] ++ "]"])) := by
  constructor
  · simp only [LeafSelectionNode.init, LeafSelectionNode.new, RegexMatcher.is_target_key]
    rw [if_neg]
    · simp [RegexMatcher.new, toString, String.append_assoc]
    · simp [hrest]
  · rfl

/-- C9, witness: the amended error naming at the leaf `[EventID, foo]` and
at the malformed pattern `(`. -/
theorem c9_error_naming_witness :
    (["foo"] : List String) ≠ [] ∧
    ((LeafSelectionNode.new ["EventID", "foo"] .null).init =
      some ({ key_list := ["EventID", "foo"], select_value := .null, matcher := none },
        .error ["Found unknown key. key:" ++ concat_selection_key ["foo"]]) ∧
    ((LeafSelectionNode.new ["F"] (.string "(")).init =
      some (boundLeaf ["F"] (.string "("),
        .error ["cannot parse regex. [regex:(, key:" ++ concat_selection_key [] ++ "]"]))) :=
  ⟨by decide, c9_error_naming_amended "EventID" ["foo"] .null (by decide)⟩

/-- C10: after any `init` of a fresh matcher — in particular a successful
one on the non-null scalar `4624`, a valid pattern — the stored pattern
field `re` is still `none`, so `is_match` is the emptiness test and the
configured pattern is never consulted during evaluation. -/
theorem c10_pattern_never_consulted :
    (∀ (kl : List String) (sv : Yaml), ((RegexMatcher.new.init kl sv).1).re = none) ∧
    RegexMatcher.new.init [] (.integer 4624) = ({ re := none }, .ok ()) ∧
    (∀ ev : Option Value,
      (({ re := none } : RegexMatcher).is_match ev = true) ↔
        (ev = none ∨ ev = some .null ∨ ev = some (.str ""))) := by
  refine ⟨?_, rfl, is_match_unbound_iff⟩
  intro kl sv
  unfold RegexMatcher.init
  by_cases h : sv.isNull = true
  · simp [h]
  · simp only [h]
    cases sv <;> simp [RegexMatcher.new] <;>
      first
        | rfl
        | (cases hr : Regex.new _ <;> simp)
